import Mathlib

/-
Verification of the python-integration-tests harness (crm-driver-service).
Shallow embedding of the harness helpers in utils/helpers.py, the pytest
fixtures in conftest.py and the straight-line bodies of the NATS event
tests in tests/test_nats_events.py, together with proofs of the behavioural
properties stated in the natural-language specification.
-/

/- ======================= Readiness Prober ======================= -/

/-- Outcome of one HTTP probe attempt made by wait_for_service:
either the response arrived with some status code, or requests.get
raised a requests.RequestException carrying a message. -/
inductive ProbeResult where
  | status (code : Nat)
  | exn (msg : List Char)
  deriving DecidableEq

/-- The URL probed by wait_for_service: the f-string url + "/health". -/
def healthUrl (url : List Char) : List Char := url ++ (("/health").toList)

/-- The readiness check performed on one probe outcome, mirroring the
Python control flow: a response with status_code == 200 is ready; any
other status falls through, and a requests.RequestException is caught
by the except clause and also falls through. -/
def isReady : ProbeResult → Bool
  | ProbeResult.status code => code == 200
  | ProbeResult.exn _ => false

/-- The polling loop of wait_for_service (utils/helpers.py lines 24-36).
Attempt k runs at elapsed time k * interval (the loop body sleeps for
interval after every attempt); the while condition checks
elapsed < timeout before each attempt.  http models requests.get: it
maps the probed URL and the attempt index to that attempt's outcome.
fuel bounds the recursion; the wrapper below supplies enough fuel for
every iteration the while loop can perform. -/
def waitAux (http : List Char → Nat → ProbeResult) (url : List Char)
    (timeout interval : ℚ) : Nat → Nat → Bool
  | 0, _ => false
  | fuel+1, k =>
    if (k : ℚ) * interval < timeout then
      if isReady (http (healthUrl url) k) then true
      else waitAux http url timeout interval fuel (k+1)
    else false

/-- wait_for_service(url, timeout, interval) from utils/helpers.py:
polls url + "/health" every interval seconds until a 200 response or
until timeout elapses. -/
def wait_for_service (http : List Char → Nat → ProbeResult) (url : List Char)
    (timeout interval : ℚ) : Bool :=
  waitAux http url timeout interval (⌈timeout / interval⌉₊ + 1) 0

/-- Replaces a probe outcome that raised a requests.RequestException by a
plain not-ready HTTP status, keeping genuine responses unchanged; used to
state that the polling loop treats exceptions exactly as not-ready. -/
def asNotReady : ProbeResult → ProbeResult
  | ProbeResult.exn _ => ProbeResult.status 503
  | r => r

/-- The wait_for_services session fixture from conftest.py lines 20-31:
asserts that PostgreSQL is ready, then asserts that the driver-service
HTTP API becomes ready within 60 seconds at 1-second intervals; a failed
assert raises an AssertionError carrying a descriptive message, modelled
by Except.error. -/
def wait_for_services (pgReady : Bool) (http : List Char → Nat → ProbeResult)
    (baseUrl : List Char) : Except (List Char) Unit :=
  if pgReady then
    if wait_for_service http baseUrl 60 1 then Except.ok ()
    else Except.error (("Driver Service HTTP API is not available").toList)
  else Except.error (("PostgreSQL is not available").toList)

/- ======================= Resource Ledger / cleanup_test_data ======================= -/

/-- Tables touched by cleanup_test_data (utils/helpers.py lines 130-147). -/
inductive Table where
  | driver_ratings
  | driver_locations
  | driver_shifts
  | driver_documents
  | drivers
  deriving DecidableEq

/-- WHERE clause of a DELETE statement issued by cleanup_test_data:
either driver_id IN (an explicit id list), or the subquery
driver_id IN (SELECT id FROM drivers WHERE email LIKE tests), or the
direct email LIKE filter used on the drivers table itself. -/
inductive Cond where
  | idIn (ids : List String)
  | idInTestEmailDrivers
  | emailLikeTest
  deriving DecidableEq

/-- One DELETE statement: the table it deletes from and its WHERE clause. -/
structure Stmt where
  table : Table
  whereCond : Cond
  deriving DecidableEq

/-- A row of the drivers table (only the columns cleanup reads). -/
structure DriverRow where
  id : String
  email : List Char
  deriving DecidableEq

/-- A row of one of the dependent tables (only the driver_id column). -/
structure DepRow where
  driver_id : String
  deriving DecidableEq

/-- The five tables cleanup_test_data touches. -/
structure Database where
  driver_ratings : List DepRow
  driver_locations : List DepRow
  driver_shifts : List DepRow
  driver_documents : List DepRow
  drivers : List DriverRow
  deriving DecidableEq

/-- Whether the pattern needle occurs at the head of hay. -/
def leadsWith : List Char → List Char → Bool
  | [], _ => true
  | _ :: _, [] => false
  | a :: as, b :: bs => a == b && leadsWith as bs

/-- Whether needle occurs anywhere inside hay; models SQL LIKE with a
percent sign on both sides of the pattern. -/
def hasSub (needle : List Char) : List Char → Bool
  | [] => leadsWith needle []
  | c :: rest => leadsWith needle (c :: rest) || hasSub needle rest

/-- The filter email LIKE percent-test-percent OR email LIKE
percent-example-percent used by the delete-all branch. -/
def likeTestOrExample (email : List Char) : Bool :=
  hasSub (("test").toList) email || hasSub (("example").toList) email

/-- The SELECT id FROM drivers WHERE email LIKE tests subquery, evaluated
against the current state of the drivers table. -/
def testDriverIds (db : Database) : List String :=
  (db.drivers.filter (fun d => likeTestOrExample d.email)).map (fun d => d.id)

/-- Whether a dependent-table row satisfies a WHERE clause. -/
def depMatches (db : Database) (c : Cond) (r : DepRow) : Bool :=
  match c with
  | Cond.idIn ids => ids.contains r.driver_id
  | Cond.idInTestEmailDrivers => (testDriverIds db).contains r.driver_id
  | Cond.emailLikeTest => false

/-- Whether a drivers-table row satisfies a WHERE clause. -/
def driverMatches (db : Database) (c : Cond) (d : DriverRow) : Bool :=
  match c with
  | Cond.idIn ids => ids.contains d.id
  | Cond.idInTestEmailDrivers => (testDriverIds db).contains d.id
  | Cond.emailLikeTest => likeTestOrExample d.email

/-- Effect of one DELETE statement on the database. -/
def applyStmt (db : Database) (s : Stmt) : Database :=
  match s.table with
  | Table.driver_ratings =>
    { db with driver_ratings := db.driver_ratings.filter (fun r => !(depMatches db s.whereCond r)) }
  | Table.driver_locations =>
    { db with driver_locations := db.driver_locations.filter (fun r => !(depMatches db s.whereCond r)) }
  | Table.driver_shifts =>
    { db with driver_shifts := db.driver_shifts.filter (fun r => !(depMatches db s.whereCond r)) }
  | Table.driver_documents =>
    { db with driver_documents := db.driver_documents.filter (fun r => !(depMatches db s.whereCond r)) }
  | Table.drivers =>
    { db with drivers := db.drivers.filter (fun d => !(driverMatches db s.whereCond d)) }

/-- The tables list of the per-id branch, in the order the source writes it
(a comment there says: clean in order of foreign key dependencies). -/
def fkTables : List Table :=
  [Table.driver_ratings, Table.driver_locations, Table.driver_shifts,
   Table.driver_documents, Table.drivers]

/-- Python truthiness of the driver_ids argument (default None): None and
the empty list are both falsy. -/
def truthyIds : Option (List String) → Bool
  | none => false
  | some ids => !ids.isEmpty

/-- The sequence of DELETE statements cleanup_test_data issues for a given
driver_ids argument: the per-id branch runs one DELETE per table over the
same id list; the delete-all branch removes the dependent rows of every
driver whose email matches the test filter and then those drivers. -/
def cleanup_stmts (driver_ids : Option (List String)) : List Stmt :=
  if truthyIds driver_ids then
    fkTables.map (fun t => { table := t, whereCond := Cond.idIn (driver_ids.getD []) })
  else
    [{ table := Table.driver_ratings, whereCond := Cond.idInTestEmailDrivers },
     { table := Table.driver_locations, whereCond := Cond.idInTestEmailDrivers },
     { table := Table.driver_shifts, whereCond := Cond.idInTestEmailDrivers },
     { table := Table.driver_documents, whereCond := Cond.idInTestEmailDrivers },
     { table := Table.drivers, whereCond := Cond.emailLikeTest }]

/-- Observable outcome of one call to cleanup_test_data: the committed
database state, the statements the cursor actually executed, the error
messages passed to logger.error, and whether the call raised to its
caller. -/
structure CleanupOutcome where
  db : Database
  attempted : List Stmt
  logged : List (List Char)
  raised : Bool
  deriving DecidableEq

/-- Executes statements in order against the cursor; fails gives the
error a statement raises, if any.  Returns the resulting uncommitted
state, the executed statements (up to and including a failing one) and
the first raised error. -/
def runStmts (fails : Stmt → Option (List Char)) (db : Database) :
    List Stmt → Database × List Stmt × Option (List Char)
  | [] => (db, [], none)
  | s :: rest =>
    match fails s with
    | some e => (db, [s], some e)
    | none =>
      match runStmts fails (applyStmt db s) rest with
      | (db2, att, err) => (db2, s :: att, err)

/-- cleanup_test_data (utils/helpers.py lines 114-154).  The whole body is
wrapped in a single try/except: a failing connect or statement jumps to
the except clause, which logs one error and swallows it; conn.commit()
runs only when every statement succeeded, so on failure no deletion is
committed.  fails models which statements the database rejects and
connectError models a failing psycopg2.connect. -/
def cleanup_test_data (connectError : Option (List Char))
    (fails : Stmt → Option (List Char)) (db : Database)
    (driver_ids : Option (List String)) : CleanupOutcome :=
  match connectError with
  | some e => { db := db, attempted := [], logged := [e], raised := false }
  | none =>
    match runStmts fails db (cleanup_stmts driver_ids) with
    | (db2, att, none) => { db := db2, attempted := att, logged := [], raised := false }
    | (_, att, some e) => { db := db, attempted := att, logged := [e], raised := false }

/-- Formalisation of the order the claim attributes to cleanup: the tracked
driver ids, in the order their drivers-table rows are deleted, reading the
id lists of the DELETE statements against the drivers table in statement
order. -/
def driversDeletionOrder (stmts : List Stmt) : List String :=
  stmts.flatMap (fun s =>
    match s.table, s.whereCond with
    | Table.drivers, Cond.idIn ids => ids
    | _, _ => [])

/- ======================= Event Correlator handler ======================= -/

/-- A parsed JSON value, as returned by json.loads. -/
inductive Json where
  | null
  | bool (b : Bool)
  | num (n : Int)
  | str (s : List Char)
  | arr (elems : List Json)
  | obj (fields : List (List Char × Json))

/-- The raw payload of one incoming NATS message, classified by what the
two decoding stages of the handler do with it: msg.data.decode() fails on
bytes that are not valid UTF-8; json.loads fails on text that is not
valid JSON; otherwise the payload parses to a JSON value. -/
inductive Payload where
  | invalidUtf8
  | notJson (s : List Char)
  | json (v : Json)

/-- An exception escaping the event handler. -/
inductive HandlerError where
  | unicodeDecodeError
  deriving DecidableEq

/-- The event_handler callback of test_driver_registered_event
(tests/test_nats_events.py lines 63-68): json.loads(msg.data.decode())
is wrapped in try/except json.JSONDecodeError.  A payload that is not
valid UTF-8 makes decode() raise UnicodeDecodeError, which that except
clause does not catch, so the handler raises; text that is not valid
JSON raises json.JSONDecodeError, which is caught and ignored; any
successfully parsed JSON value is appended to received_events. -/
def event_handler (received_events : List Json) (p : Payload) :
    Except HandlerError (List Json) :=
  match p with
  | Payload.invalidUtf8 => Except.error HandlerError.unicodeDecodeError
  | Payload.notJson _ => Except.ok received_events
  | Payload.json v => Except.ok (received_events ++ [v])

/-- Feeds a sequence of incoming messages through event_handler,
threading the collected event list; an exception escaping the handler
propagates. -/
def run_handler (events : List Json) : List Payload → Except HandlerError (List Json)
  | [] => Except.ok events
  | p :: rest =>
    match event_handler events p with
    | Except.ok es => run_handler es rest
    | Except.error e => Except.error e

/- ======================= NATS test bodies as traces ======================= -/

/-- One step of a straight-line NATS test body, in program order. -/
inductive Step where
  | subscribe (subject : List Char)
  | flush
  | httpPost (path : List Char)
  | httpPatch (path : List Char)
  | sleepSec (seconds : ℚ)
  | track
  | filterEvents (eventType : List Char)
  | assertOutcome
  deriving DecidableEq

/-- Body of test_driver_registered_event (tests/test_nats_events.py
lines 58-100) in program order. -/
def test_driver_registered_trace : List Step :=
  [Step.subscribe (("driver.registered").toList),
   Step.flush,
   Step.httpPost (("/api/v1/drivers").toList),
   Step.assertOutcome,
   Step.track,
   Step.sleepSec 1,
   Step.filterEvents (("driver_registered").toList),
   Step.assertOutcome]

/-- Body of test_driver_status_changed_event (lines 102-139). -/
def test_driver_status_changed_trace : List Step :=
  [Step.subscribe (("driver.status.changed").toList),
   Step.flush,
   Step.httpPatch (("/api/v1/drivers/<driver_id>/status").toList),
   Step.assertOutcome,
   Step.sleepSec 1,
   Step.filterEvents (("driver_status_changed").toList),
   Step.assertOutcome]

/-- Body of test_driver_location_updated_event (lines 141-186). -/
def test_driver_location_updated_trace : List Step :=
  [Step.subscribe (("driver.location.updated").toList),
   Step.flush,
   Step.httpPost (("/api/v1/drivers/<driver_id>/locations").toList),
   Step.assertOutcome,
   Step.sleepSec 1,
   Step.filterEvents (("driver_location_updated").toList),
   Step.assertOutcome]

/-- Body of test_nats_event_ordering (lines 412-467): two subscriptions,
one flush, then three rounds of a status change followed by a location
update and a short sleep, a final settle sleep, and the collection
filters. -/
def test_nats_event_ordering_trace : List Step :=
  [Step.subscribe (("driver.status.changed").toList),
   Step.subscribe (("driver.location.updated").toList),
   Step.flush,
   Step.httpPatch (("/api/v1/drivers/<driver_id>/status").toList),
   Step.httpPost (("/api/v1/drivers/<driver_id>/locations").toList),
   Step.sleepSec (1/2),
   Step.httpPatch (("/api/v1/drivers/<driver_id>/status").toList),
   Step.httpPost (("/api/v1/drivers/<driver_id>/locations").toList),
   Step.sleepSec (1/2),
   Step.httpPatch (("/api/v1/drivers/<driver_id>/status").toList),
   Step.httpPost (("/api/v1/drivers/<driver_id>/locations").toList),
   Step.sleepSec (1/2),
   Step.sleepSec 2,
   Step.filterEvents (("driver_status_changed").toList),
   Step.filterEvents (("driver_location_updated").toList),
   Step.assertOutcome]

/-- Whether a step is an HTTP action that can trigger a bus event. -/
def isTrigger : Step → Bool
  | Step.httpPost _ => true
  | Step.httpPatch _ => true
  | _ => false

/-- Whether a step establishes a bus subscription. -/
def isSubscribe : Step → Bool
  | Step.subscribe _ => true
  | _ => false

/-- The sequencing property of an event-correlation test body: the trace
contains a subscription and a triggering HTTP action, and some flush step
comes strictly after every subscription and strictly before the first
triggering action. -/
def subscribeFlushSequenced (tr : List Step) : Bool :=
  let t := tr.findIdx isTrigger
  decide (t < tr.length) &&
    tr.any isSubscribe &&
      ((List.range tr.length).any (fun j =>
        decide (tr.getD j Step.flush = Step.flush) && decide (j < t) &&
          ((List.range tr.length).all (fun i =>
            !(isSubscribe (tr.getD i Step.flush)) || decide (i < j)))))

/- ======================= Fixture Factory ======================= -/

/-- Whether a character is a decimal digit, as matched by the regex
character class in assert_driver_data_valid. -/
def isDigitChar (c : Char) : Bool := decide (('0') ≤ c) && decide (c ≤ ('9'))

/-- Decimal rendering of a natural number, most significant digit first,
as Python str() interpolates an int into an f-string; fuel bounds the
recursion and the wrapper supplies enough of it. -/
def toDecAux : Nat → Nat → List Char
  | 0, _ => []
  | fuel+1, n =>
    if n < 10 then [Nat.digitChar n]
    else toDecAux fuel (n / 10) ++ [Nat.digitChar (n % 10)]

/-- Decimal digit string of n. -/
def toDec (n : Nat) : List Char := toDecAux (n + 1) n

/-- The phone generated by generate_test_driver_data when no override is
given (utils/helpers.py line 42): the f-string +7 followed by
fake.random_int(min=9000000000, max=9999999999). -/
def generate_phone (r : Nat) : List Char := ('+') :: ('7') :: toDec r

/-- The phone pattern of assert_driver_data_valid (utils/helpers.py line
205): a plus sign, the digit 7, then exactly ten decimal digits, anchored
at both ends. -/
def phoneMatches : List Char → Bool
  | '+' :: '7' :: rest => (rest.length == 10) && rest.all isDigitChar
  | _ => false

/-- Python float modulo 1.0: the result keeps the sign of the divisor, so
it always lies in the interval from 0 inclusive to 1 exclusive. -/
def pyMod1 (x : ℚ) : ℚ := x - ⌊x⌋

/-- Python round(x, 6): rounding to six decimal places.  Python breaks
exact ties to the even digit while round breaks them upward; both stay
within half an ulp of x, which is all the proofs use. -/
def round6 (x : ℚ) : ℚ := ((round (x * 1000000) : ℤ) : ℚ) / 1000000

/-- The default latitude of generate_test_location_data (utils/helpers.py
lines 75-78): the Moscow-region shift of the raw faker latitude followed
by rounding to six decimals. -/
def genLatitude (raw : ℚ) : ℚ :=
  round6 (557558/10000 + (pyMod1 raw - 1/2) * (1/2))

/-- The default longitude of generate_test_location_data (lines 80-83). -/
def genLongitude (raw : ℚ) : ℚ :=
  round6 (376176/10000 + (pyMod1 raw - 1/2) * (1/2))

/-- One location payload, with the fields generate_test_location_data
always emits. -/
structure LocationData where
  latitude : ℚ
  longitude : ℚ
  accuracy : Nat
  speed : Nat
  bearing : Nat
  timestamp : Int
  deriving DecidableEq

instance : Inhabited LocationData :=
  ⟨{ latitude := 0, longitude := 0, accuracy := 0, speed := 0, bearing := 0, timestamp := 0 }⟩

/-- generate_test_location_data with no overrides: coordinates from the
raw faker values, the faker integers for accuracy, speed and bearing, and
the current time as timestamp. -/
def generate_test_location_data (rawLat rawLon : ℚ) (acc spd brg : Nat) (now : Int) :
    LocationData :=
  { latitude := genLatitude rawLat, longitude := genLongitude rawLon,
    accuracy := acc, speed := spd, bearing := brg, timestamp := now }

/-- generate_batch_location_data (utils/helpers.py lines 101-111): gen i
models the i-th call to generate_test_location_data with its fresh
randomness; base_time is now - count * 10 and each timestamp is
overwritten to base_time + i * 10. -/
def generate_batch_location_data (gen : Nat → LocationData) (now : Int) (count : Nat) :
    List LocationData :=
  (List.range count).map (fun i =>
    { gen i with timestamp := (now - (count : Int) * 10) + (i : Int) * 10 })

/- ======================= Theorems: Readiness Prober ======================= -/

theorem isReady_eq_true_iff (r : ProbeResult) :
    isReady r = true ↔ r = ProbeResult.status 200 := by
  cases r <;> simp [isReady]

theorem waitAux_true_iff (http : List Char → Nat → ProbeResult) (url : List Char)
    (t i : ℚ) (hi : 0 ≤ i) :
    ∀ fuel k, (∀ j : ℕ, (j : ℚ) * i < t → j < k + fuel) →
      (waitAux http url t i fuel k = true ↔
        ∃ j : ℕ, k ≤ j ∧ (j : ℚ) * i < t ∧ isReady (http (healthUrl url) j) = true) := by
  intro fuel
  induction fuel with
  | zero =>
    intro k H
    simp only [waitAux]
    constructor
    · intro h; exact absurd h (by simp)
    · rintro ⟨j, hkj, hjt, _⟩
      have := H j hjt
      omega
  | succ fuel ih =>
    intro k H
    have hunfold : waitAux http url t i (fuel+1) k =
        if (k : ℚ) * i < t then
          if isReady (http (healthUrl url) k) then true
          else waitAux http url t i fuel (k+1)
        else false := rfl
    by_cases hkt : (k : ℚ) * i < t
    · by_cases hk : isReady (http (healthUrl url) k) = true
      · rw [hunfold, if_pos hkt, if_pos hk]
        exact iff_of_true rfl ⟨k, le_refl k, hkt, hk⟩
      · rw [hunfold, if_pos hkt, if_neg hk, ih (k+1) (fun j hj => by have := H j hj; omega)]
        constructor
        · rintro ⟨j, hkj, hjt, hjr⟩
          exact ⟨j, by omega, hjt, hjr⟩
        · rintro ⟨j, hkj, hjt, hjr⟩
          rcases Nat.eq_or_lt_of_le hkj with h | h
          · exact absurd hjr (h ▸ hk)
          · exact ⟨j, h, hjt, hjr⟩
    · rw [hunfold, if_neg hkt]
      apply iff_of_false (by simp)
      rintro ⟨j, hkj, hjt, _⟩
      have hcast : (k : ℚ) ≤ (j : ℚ) := by exact_mod_cast hkj
      have : (k : ℚ) * i ≤ (j : ℚ) * i := mul_le_mul_of_nonneg_right hcast hi
      exact hkt (lt_of_le_of_lt this hjt)

/-- Claim C4: wait_for_service returns true exactly when some probe attempt
whose GET of url + "/health" happens within the timeout window (attempt k
runs at elapsed time k * interval) yields HTTP status 200; it returns false
when the timeout elapses before any attempt succeeds, and any non-200
status counts as not ready. -/
theorem wait_for_service_ready_iff (http : List Char → Nat → ProbeResult)
    (url : List Char) (t i : ℚ) (hi : 0 < i) :
    wait_for_service http url t i = true ↔
      ∃ k : ℕ, (k : ℚ) * i < t ∧ http (healthUrl url) k = ProbeResult.status 200 := by
  have H : ∀ j : ℕ, (j : ℚ) * i < t → j < 0 + (⌈t / i⌉₊ + 1) := by
    intro j hj
    have h1 : (j : ℚ) < t / i := by rw [lt_div_iff₀ hi]; exact hj
    have h2 : (j : ℚ) < (⌈t / i⌉₊ : ℚ) + 1 :=
      lt_of_lt_of_le h1 (le_trans (Nat.le_ceil _) (by linarith))
    have h3 : (j : ℕ) < ⌈t / i⌉₊ + 1 := by exact_mod_cast h2
    omega
  rw [wait_for_service, waitAux_true_iff http url t i (le_of_lt hi) _ 0 H]
  constructor
  · rintro ⟨j, _, hjt, hjr⟩
    exact ⟨j, hjt, (isReady_eq_true_iff _).mp hjr⟩
  · rintro ⟨j, hjt, hjr⟩
    exact ⟨j, Nat.zero_le j, hjt, (isReady_eq_true_iff _).mpr hjr⟩

theorem wait_for_service_ready_iff_witness :
    0 < (1 : ℚ) ∧
      (wait_for_service
          (fun _ k => if k == 2 then ProbeResult.status 200 else ProbeResult.exn [])
          [] 30 1 = true ↔
        ∃ k : ℕ, (k : ℚ) * 1 < 30 ∧
          (fun _ k => if k == 2 then ProbeResult.status 200 else ProbeResult.exn [])
            (healthUrl []) k = ProbeResult.status 200) :=
  ⟨by norm_num,
   wait_for_service_ready_iff
     (fun _ k => if k == 2 then ProbeResult.status 200 else ProbeResult.exn [])
     [] 30 1 (by norm_num)⟩

theorem waitAux_asNotReady (http : List Char → Nat → ProbeResult) (url : List Char)
    (t i : ℚ) :
    ∀ fuel k, waitAux (fun u k => asNotReady (http u k)) url t i fuel k
      = waitAux http url t i fuel k := by
  intro fuel
  induction fuel with
  | zero => intro k; rfl
  | succ fuel ih =>
    intro k
    have hsame : isReady (asNotReady (http (healthUrl url) k))
        = isReady (http (healthUrl url) k) := by
      cases http (healthUrl url) k <;> simp [asNotReady, isReady]
    simp only [waitAux, hsame, ih]

/-- Claim C5: probe attempts that raise a requests.RequestException are
swallowed by the polling loop and treated exactly like a not-ready HTTP
status, so polling continues and wait_for_service always returns a Bool
to its caller; when every attempt fails, the session fixture surfaces the
descriptive failure message for the HTTP API. -/
theorem wait_for_service_exception_policy (http : List Char → Nat → ProbeResult)
    (url : List Char) (t i : ℚ) :
    wait_for_service (fun u k => asNotReady (http u k)) url t i
        = wait_for_service http url t i
    ∧ (wait_for_service http url 60 1 = false →
        wait_for_services true http url
          = Except.error (("Driver Service HTTP API is not available").toList)) := by
  constructor
  · rw [wait_for_service, wait_for_service, waitAux_asNotReady]
  · intro h
    simp [wait_for_services, h]

theorem wait_for_service_exception_policy_witness :
    wait_for_service (fun u k => asNotReady ((fun _ _ => ProbeResult.exn []) u k)) [] 5 1
        = wait_for_service (fun _ _ => ProbeResult.exn []) [] 5 1
    ∧ (wait_for_service (fun _ _ => ProbeResult.exn []) [] 60 1 = false →
        wait_for_services true (fun _ _ => ProbeResult.exn []) []
          = Except.error (("Driver Service HTTP API is not available").toList)) :=
  wait_for_service_exception_policy (fun _ _ => ProbeResult.exn []) [] 5 1

/- ======================= Theorems: resource cleanup ======================= -/

theorem runStmts_of_err_none (fails : Stmt → Option (List Char)) :
    ∀ (stmts : List Stmt) (db : Database),
      (runStmts fails db stmts).2.2 = none →
        (runStmts fails db stmts).2.1 = stmts
        ∧ (runStmts fails db stmts).1 = stmts.foldl applyStmt db := by
  intro stmts
  induction stmts with
  | nil => intro db _; exact ⟨rfl, rfl⟩
  | cons s rest ih =>
    intro db h
    cases hf : fails s with
    | some e =>
      simp only [runStmts, hf] at h
      exact absurd h (by simp)
    | none =>
      simp only [runStmts, hf] at h ⊢
      have := ih (applyStmt db s) h
      exact ⟨by rw [this.1], by rw [this.2]; rfl⟩

theorem runStmts_attempted_take (fails : Stmt → Option (List Char)) :
    ∀ (stmts : List Stmt) (db : Database),
      ∃ k, (runStmts fails db stmts).2.1 = stmts.take k := by
  intro stmts
  induction stmts with
  | nil => intro db; exact ⟨0, rfl⟩
  | cons s rest ih =>
    intro db
    cases hf : fails s with
    | some e => exact ⟨1, by simp only [runStmts, hf]; rfl⟩
    | none =>
      rcases ih (applyStmt db s) with ⟨k, hk⟩
      exact ⟨k + 1, by simp only [runStmts, hf, List.take_succ_cons, hk]⟩

theorem runStmts_err_count (fails : Stmt → Option (List Char)) :
    ∀ (stmts : List Stmt) (db : Database),
      (runStmts fails db stmts).2.2 = none ∨
        ∃ e, (runStmts fails db stmts).2.2 = some e := by
  intro stmts db
  cases h : (runStmts fails db stmts).2.2 with
  | none => exact Or.inl rfl
  | some e => exact Or.inr ⟨e, rfl⟩

/-- Claim C1 counterexample: with one failing DELETE statement, the
cleanup routine does NOT attempt the remaining delete statements — the
single try/except around the whole body aborts the loop at the first
failure, so the executed statements differ from the full statement list.
Concretely, when the driver_ratings DELETE fails, only that one statement
is attempted out of the five. -/
theorem cleanup_aborts_after_first_failure_cex :
    ¬ ((cleanup_test_data none
          (fun s => if s.table = Table.driver_ratings then some (("boom").toList) else none)
          { driver_ratings := [], driver_locations := [], driver_shifts := [],
            driver_documents := [], drivers := [] }
          (some [("d1")])).attempted
        = cleanup_stmts (some [("d1")])) := by
  decide

/-- Claim C1 (amended): cleanup_test_data never raises to its caller (the
test process is not aborted); the executed statements are always an
initial segment of the planned statement list; at most one failure is
ever logged; when nothing fails every statement runs and the combined
effect is committed; and when any statement or the connect fails, the
loop stops there, the single first failure is logged, and nothing at all
is committed (the remaining resources are neither deleted nor their
failures recorded). -/
theorem cleanup_failure_policy (connectError : Option (List Char))
    (fails : Stmt → Option (List Char)) (db : Database)
    (driver_ids : Option (List String)) :
    (cleanup_test_data connectError fails db driver_ids).raised = false
    ∧ (∃ k, (cleanup_test_data connectError fails db driver_ids).attempted
          = (cleanup_stmts driver_ids).take k)
    ∧ (cleanup_test_data connectError fails db driver_ids).logged.length ≤ 1
    ∧ ((cleanup_test_data connectError fails db driver_ids).logged = [] →
        (cleanup_test_data connectError fails db driver_ids).attempted = cleanup_stmts driver_ids
        ∧ (cleanup_test_data connectError fails db driver_ids).db
            = (cleanup_stmts driver_ids).foldl applyStmt db)
    ∧ ((cleanup_test_data connectError fails db driver_ids).logged ≠ [] →
        (cleanup_test_data connectError fails db driver_ids).db = db) := by
  cases connectError with
  | some e =>
    refine ⟨rfl, ⟨0, by simp [cleanup_test_data]⟩, by simp [cleanup_test_data], ?_, ?_⟩
    · intro h
      simp [cleanup_test_data] at h
    · intro _
      rfl
  | none =>
    rcases hp : runStmts fails db (cleanup_stmts driver_ids) with ⟨db2, att, err⟩
    cases err with
    | none =>
      have hops := runStmts_of_err_none fails (cleanup_stmts driver_ids) db (by rw [hp])
      rw [hp] at hops
      simp only [cleanup_test_data, hp]
      refine ⟨by trivial, ⟨(cleanup_stmts driver_ids).length, ?_⟩, by simp, ?_, ?_⟩
      · simpa [List.take_length] using hops.1
      · intro _
        exact ⟨hops.1, hops.2⟩
      · intro h
        trivial
    | some e =>
      have htake := runStmts_attempted_take fails (cleanup_stmts driver_ids) db
      rw [hp] at htake
      simp only [cleanup_test_data, hp]
      refine ⟨by trivial, htake, by simp, ?_, ?_⟩
      · intro h
        simp at h
      · intro _
        trivial

theorem cleanup_failure_policy_witness :
    (cleanup_test_data none (fun _ => none)
        { driver_ratings := [], driver_locations := [], driver_shifts := [],
          driver_documents := [], drivers := [] } (some [("d1")])).raised = false
    ∧ (∃ k, (cleanup_test_data none (fun _ => none)
          { driver_ratings := [], driver_locations := [], driver_shifts := [],
            driver_documents := [], drivers := [] } (some [("d1")])).attempted
          = (cleanup_stmts (some [("d1")])).take k)
    ∧ (cleanup_test_data none (fun _ => none)
        { driver_ratings := [], driver_locations := [], driver_shifts := [],
          driver_documents := [], drivers := [] } (some [("d1")])).logged.length ≤ 1
    ∧ ((cleanup_test_data none (fun _ => none)
          { driver_ratings := [], driver_locations := [], driver_shifts := [],
            driver_documents := [], drivers := [] } (some [("d1")])).logged = [] →
        (cleanup_test_data none (fun _ => none)
            { driver_ratings := [], driver_locations := [], driver_shifts := [],
              driver_documents := [], drivers := [] } (some [("d1")])).attempted
          = cleanup_stmts (some [("d1")])
        ∧ (cleanup_test_data none (fun _ => none)
              { driver_ratings := [], driver_locations := [], driver_shifts := [],
                driver_documents := [], drivers := [] } (some [("d1")])).db
            = (cleanup_stmts (some [("d1")])).foldl applyStmt
                { driver_ratings := [], driver_locations := [], driver_shifts := [],
                  driver_documents := [], drivers := [] })
    ∧ ((cleanup_test_data none (fun _ => none)
          { driver_ratings := [], driver_locations := [], driver_shifts := [],
            driver_documents := [], drivers := [] } (some [("d1")])).logged ≠ [] →
        (cleanup_test_data none (fun _ => none)
            { driver_ratings := [], driver_locations := [], driver_shifts := [],
              driver_documents := [], drivers := [] } (some [("d1")])).db
          = { driver_ratings := [], driver_locations := [], driver_shifts := [],
              driver_documents := [], drivers := [] }) :=
  cleanup_failure_policy none (fun _ => none)
    { driver_ratings := [], driver_locations := [], driver_shifts := [],
      driver_documents := [], drivers := [] } (some [("d1")])

/-- Claim C2 counterexample: tracking the two drivers d1 then d2, the
deletion order the cleanup issues against the drivers table is not the
reverse of the tracked order: both ids are deleted by one statement that
lists them in tracked order, so the last-tracked-first (stack) discipline
the claim states does not hold. -/
theorem cleanup_not_reverse_tracked_order_cex :
    driversDeletionOrder (cleanup_stmts (some [("d1"), ("d2")]))
      ≠ List.reverse [("d1"), ("d2")] := by
  decide

/-- Claim C2 (amended): the cleanup respects dependencies at table
granularity, not at resource granularity: for a non-empty tracked id
list it issues exactly one DELETE per table, covering all tracked ids at
once, processing the tables in fixed foreign-key dependency order with
the drivers table last — there is no per-resource last-tracked-first
ordering. -/
theorem cleanup_fk_table_order (ids : List String) (h : ids ≠ []) :
    cleanup_stmts (some ids) =
      [{ table := Table.driver_ratings, whereCond := Cond.idIn ids },
       { table := Table.driver_locations, whereCond := Cond.idIn ids },
       { table := Table.driver_shifts, whereCond := Cond.idIn ids },
       { table := Table.driver_documents, whereCond := Cond.idIn ids },
       { table := Table.drivers, whereCond := Cond.idIn ids }] := by
  have ht : truthyIds (some ids) = true := by
    cases ids with
    | nil => exact absurd rfl h
    | cons a l => rfl
  simp [cleanup_stmts, ht, fkTables]

theorem cleanup_fk_table_order_witness :
    ([("a")] : List String) ≠ []
    ∧ cleanup_stmts (some [("a")]) =
        [{ table := Table.driver_ratings, whereCond := Cond.idIn [("a")] },
         { table := Table.driver_locations, whereCond := Cond.idIn [("a")] },
         { table := Table.driver_shifts, whereCond := Cond.idIn [("a")] },
         { table := Table.driver_documents, whereCond := Cond.idIn [("a")] },
         { table := Table.drivers, whereCond := Cond.idIn [("a")] }] :=
  ⟨by decide, cleanup_fk_table_order [("a")] (by decide)⟩

/-- Claim C10: calling cleanup_test_data with an empty id list takes the
same branch as passing no ids at all (both are falsy), issuing the
delete-all-test-data statements; executing them deletes every driver
whose email contains test or example together with the dependent rows of
those drivers, and leaves everything else in place. -/
theorem cleanup_empty_ids_deletes_all_test_data (db : Database) :
    cleanup_stmts (some []) = cleanup_stmts none
    ∧ (cleanup_test_data none (fun _ => none) db (some [])).db.drivers
        = db.drivers.filter (fun d => !(likeTestOrExample d.email))
    ∧ (cleanup_test_data none (fun _ => none) db (some [])).db.driver_ratings
        = db.driver_ratings.filter (fun r => !((testDriverIds db).contains r.driver_id))
    ∧ (cleanup_test_data none (fun _ => none) db (some [])).db.driver_locations
        = db.driver_locations.filter (fun r => !((testDriverIds db).contains r.driver_id))
    ∧ (cleanup_test_data none (fun _ => none) db (some [])).db.driver_shifts
        = db.driver_shifts.filter (fun r => !((testDriverIds db).contains r.driver_id))
    ∧ (cleanup_test_data none (fun _ => none) db (some [])).db.driver_documents
        = db.driver_documents.filter (fun r => !((testDriverIds db).contains r.driver_id)) :=
  ⟨rfl, rfl, rfl, rfl, rfl, rfl⟩

/- ======================= Theorems: event handler ======================= -/

/-- Claim C3 counterexample: a message whose payload is not valid UTF-8
cannot be decoded into a JSON object, yet the handler does not drop it
with the collected sequence unchanged — msg.data.decode() raises a
UnicodeDecodeError that the except json.JSONDecodeError clause does not
catch, so the handler raises instead of returning. -/
theorem event_handler_undecodable_cex :
    event_handler [] Payload.invalidUtf8 ≠ Except.ok [] := by
  simp [event_handler]

/-- Claim C3 (amended): a message whose payload is valid UTF-8 but not
valid JSON is dropped — the collected sequence is unchanged, no exception
escapes, and subsequent messages are still processed; a payload that
parses as any JSON value, object or not, is appended to the collection;
and a payload that is not valid UTF-8 raises an uncaught
UnicodeDecodeError out of the handler. -/
theorem event_handler_malformed_policy (events : List Json) (s : List Char) (v : Json)
    (rest : List Payload) :
    run_handler events (Payload.notJson s :: rest) = run_handler events rest
    ∧ event_handler events (Payload.json v) = Except.ok (events ++ [v])
    ∧ event_handler events Payload.invalidUtf8
        = Except.error HandlerError.unicodeDecodeError :=
  ⟨rfl, rfl, rfl⟩

/- ======================= Theorems: subscribe before trigger ======================= -/

/-- Claim C6: in each event-correlation test body of
tests/test_nats_events.py, every bus subscription and the following flush
are sequenced strictly before the first HTTP action that can trigger the
expected event, so no matched event can have been captured before the
triggering action executed. -/
theorem nats_tests_subscribe_flush_before_trigger :
    subscribeFlushSequenced test_driver_registered_trace = true
    ∧ subscribeFlushSequenced test_driver_status_changed_trace = true
    ∧ subscribeFlushSequenced test_driver_location_updated_trace = true
    ∧ subscribeFlushSequenced test_nats_event_ordering_trace = true := by
  decide

/- ======================= Theorems: fixture factory ======================= -/

theorem digitChar_is_digit : ∀ n, n < 10 → isDigitChar (Nat.digitChar n) = true := by
  decide

theorem toDecAux_all_digits : ∀ (fuel n : Nat), n < fuel →
    ∀ c ∈ toDecAux fuel n, isDigitChar c = true := by
  intro fuel
  induction fuel with
  | zero => intro n h; omega
  | succ fuel ih =>
    intro n hn c hc
    by_cases h10 : n < 10
    · simp only [toDecAux, if_pos h10, List.mem_singleton] at hc
      subst hc
      exact digitChar_is_digit n h10
    · simp only [toDecAux, if_neg h10, List.mem_append, List.mem_singleton] at hc
      rcases hc with hc | hc
      · have hdiv : n / 10 < fuel := by
          have := Nat.div_lt_self (show 0 < n by omega) (show 1 < 10 by norm_num)
          omega
        exact ih (n / 10) hdiv c hc
      · subst hc
        exact digitChar_is_digit (n % 10) (Nat.mod_lt n (by norm_num))

theorem toDecAux_len : ∀ (fuel k n : Nat), n < fuel → 10 ^ k ≤ n → n < 10 ^ (k + 1) →
    (toDecAux fuel n).length = k + 1 := by
  intro fuel
  induction fuel with
  | zero => intro k n h; omega
  | succ fuel ih =>
    intro k n hn hlo hhi
    by_cases h10 : n < 10
    · have hk : k = 0 := by
        by_contra hk
        have h1 : (10:ℕ) ^ 1 ≤ 10 ^ k := Nat.pow_le_pow_right (by norm_num) (by omega)
        simp at h1
        omega
      subst hk
      simp [toDecAux, if_pos h10]
    · have hk1 : 1 ≤ k := by
        by_contra hk
        have hk0 : k = 0 := by omega
        subst hk0
        simp at hhi
        omega
      obtain ⟨k', rfl⟩ : ∃ k', k = k' + 1 := ⟨k - 1, by omega⟩
      have hstep : toDecAux (fuel+1) n = toDecAux fuel (n / 10) ++ [Nat.digitChar (n % 10)] := by
        simp [toDecAux, if_neg h10]
      have hdivfuel : n / 10 < fuel := by
        have := Nat.div_lt_self (show 0 < n by omega) (show 1 < 10 by norm_num)
        omega
      have hdivlo : 10 ^ k' ≤ n / 10 := by
        rw [Nat.le_div_iff_mul_le (by norm_num)]
        calc 10 ^ k' * 10 = 10 ^ (k' + 1) := by ring
          _ ≤ n := hlo
      have hdivhi : n / 10 < 10 ^ (k' + 1) := by
        rw [Nat.div_lt_iff_lt_mul (by norm_num)]
        calc n < 10 ^ (k' + 1 + 1) := hhi
          _ = 10 ^ (k' + 1) * 10 := by ring
      rw [hstep, List.length_append]
      rw [ih k' (n / 10) hdivfuel hdivlo hdivhi]
      simp

theorem round6_close (x : ℚ) : |round6 x - x| ≤ 1 / 1000000 := by
  have h := abs_sub_round (x * 1000000)
  have heq : round6 x - x = ((round (x * 1000000) : ℤ) : ℚ) / 1000000 - x := by
    rw [round6]
  have heq2 : round6 x - x
      = -((x * 1000000 - ((round (x * 1000000) : ℤ) : ℚ)) / 1000000) := by
    rw [heq]; ring
  rw [heq2, abs_neg, abs_div]
  have habs : |(1000000 : ℚ)| = 1000000 := by norm_num
  rw [habs]
  have hstep : |x * 1000000 - ((round (x * 1000000) : ℤ) : ℚ)| / 1000000
      ≤ (1 / 2) / 1000000 := by
    gcongr
  linarith

theorem pyMod1_bounds (x : ℚ) : 0 ≤ pyMod1 x ∧ pyMod1 x < 1 := by
  unfold pyMod1
  constructor
  · have := Int.floor_le x
    linarith
  · have := Int.lt_floor_add_one x
    linarith

theorem genLatitude_bounds (raw : ℚ) : -90 ≤ genLatitude raw ∧ genLatitude raw ≤ 90 := by
  obtain ⟨hm0, hm1⟩ := pyMod1_bounds raw
  have hc := round6_close (557558/10000 + (pyMod1 raw - 1/2) * (1/2))
  rw [abs_le] at hc
  unfold genLatitude
  constructor <;> linarith [hc.1, hc.2]

theorem genLongitude_bounds (raw : ℚ) :
    -180 ≤ genLongitude raw ∧ genLongitude raw ≤ 180 := by
  obtain ⟨hm0, hm1⟩ := pyMod1_bounds raw
  have hc := round6_close (376176/10000 + (pyMod1 raw - 1/2) * (1/2))
  rw [abs_le] at hc
  unfold genLongitude
  constructor <;> linarith [hc.1, hc.2]

/-- Claim C7: with no explicit overrides, the generated driver phone
matches the anchored pattern plus-seven-then-ten-digits for every value
the faker integer can take, and the generated location coordinates lie
within the valid ranges — latitude in -90..90 and longitude in -180..180
— after the Moscow-region shift and rounding to six decimals, for every
raw faker coordinate. -/
theorem fixture_fields_satisfy_constraints (r : Nat) (rawLat rawLon : ℚ)
    (h1 : 9000000000 ≤ r) (h2 : r ≤ 9999999999) :
    phoneMatches (generate_phone r) = true
    ∧ -90 ≤ genLatitude rawLat ∧ genLatitude rawLat ≤ 90
    ∧ -180 ≤ genLongitude rawLon ∧ genLongitude rawLon ≤ 180 := by
  refine ⟨?_, (genLatitude_bounds rawLat).1, (genLatitude_bounds rawLat).2,
    (genLongitude_bounds rawLon).1, (genLongitude_bounds rawLon).2⟩
  have hlen : (toDec r).length = 10 := by
    have hlo : 10 ^ 9 ≤ r := by
      have : (10:ℕ) ^ 9 = 1000000000 := by norm_num
      omega
    have hhi : r < 10 ^ (9 + 1) := by
      have : (10:ℕ) ^ (9 + 1) = 10000000000 := by norm_num
      omega
    exact toDecAux_len (r + 1) 9 r (by omega) hlo hhi
  have hall : (toDec r).all isDigitChar = true :=
    List.all_eq_true.mpr (fun c hc => toDecAux_all_digits (r + 1) r (by omega) c hc)
  show (((toDec r).length == 10) && (toDec r).all isDigitChar) = true
  rw [hlen, hall]
  rfl

theorem fixture_fields_satisfy_constraints_witness :
    (9000000000 ≤ 9123456789 ∧ 9123456789 ≤ 9999999999)
    ∧ (phoneMatches (generate_phone 9123456789) = true
      ∧ -90 ≤ genLatitude (1/3) ∧ genLatitude (1/3) ≤ 90
      ∧ -180 ≤ genLongitude (-7/5) ∧ genLongitude (-7/5) ≤ 180) :=
  ⟨⟨by norm_num, by norm_num⟩,
   fixture_fields_satisfy_constraints 9123456789 (1/3) (-7/5) (by norm_num) (by norm_num)⟩

/- ======================= Theorems: batch locations ======================= -/

theorem batch_timestamp_at (gen : Nat → LocationData) (now : Int) (count i : Nat)
    (h : i < count) :
    ((generate_batch_location_data gen now count).getD i default).timestamp
      = now - (count : Int) * 10 + (i : Int) * 10 := by
  rw [generate_batch_location_data, List.getD_eq_getElem?_getD]
  simp [List.getElem?_map, List.getElem?_range, h]

/-- Claim C8: for every count of at least one, the generated batch has
exactly count location payloads, consecutive timestamps differ by exactly
ten seconds, and timestamps are strictly increasing along the batch. -/
theorem batch_location_data_spacing (gen : Nat → LocationData) (now : Int) (count : Nat)
    (_hc : 1 ≤ count) :
    (generate_batch_location_data gen now count).length = count
    ∧ (∀ i, i + 1 < count →
        ((generate_batch_location_data gen now count).getD (i+1) default).timestamp
          = ((generate_batch_location_data gen now count).getD i default).timestamp + 10)
    ∧ (∀ i j, i < j → j < count →
        ((generate_batch_location_data gen now count).getD i default).timestamp
          < ((generate_batch_location_data gen now count).getD j default).timestamp) := by
  refine ⟨by simp [generate_batch_location_data], ?_, ?_⟩
  · intro i h
    rw [batch_timestamp_at gen now count (i+1) h, batch_timestamp_at gen now count i (by omega)]
    push_cast
    ring
  · intro i j hij hj
    rw [batch_timestamp_at gen now count i (by omega), batch_timestamp_at gen now count j hj]
    have hcast : (i : Int) < (j : Int) := by exact_mod_cast hij
    linarith

theorem batch_location_data_spacing_witness :
    1 ≤ 3
    ∧ ((generate_batch_location_data (fun _ => default) 0 3).length = 3
      ∧ (∀ i, i + 1 < 3 →
          ((generate_batch_location_data (fun _ => default) 0 3).getD (i+1) default).timestamp
            = ((generate_batch_location_data (fun _ => default) 0 3).getD i default).timestamp
                + 10)
      ∧ (∀ i j, i < j → j < 3 →
          ((generate_batch_location_data (fun _ => default) 0 3).getD i default).timestamp
            < ((generate_batch_location_data (fun _ => default) 0 3).getD j default).timestamp)) :=
  ⟨by norm_num, batch_location_data_spacing (fun _ => default) 0 3 (by norm_num)⟩
